import Mathlib

/-!
# MusicWidget: owner-changed handling, transport buttons and window dragging

A shallow embedding of `src/widget/rythmbox_plugins/MusicWidget.cpp`.

* The widget object is a record of the members the handlers read or write.
  The header `MusicWidget.h` is not part of the sources, so the members are
  the ones the `.cpp` file names.
* A handler is a pure function from the widget (and its arguments) to the
  widget afterwards together with the list of effects it performed, in
  program order: text written to `std::cout`, a call of the stub
  `update_player_status`, a `move` of the window.
* `Glib::ustring` is `String`; `ustring::find` is written out below.
* The `double` arithmetic of the drag handlers is a parameter (`DoubleOps`).
-/

/-! ## Toolkit values -/

/-- The `Gtk::Stock` items the file uses. -/
inductive StockID where
  | MEDIA_OPTICAL
  | MEDIA_SKIP_BACKWARD
  | MEDIA_PLAY
  | MEDIA_SKIP_FORWARD
  deriving DecidableEq, Repr

/-- The `Gtk::IconSize` values the file uses. -/
inductive IconSize where
  | ICON_SIZE_DIALOG
  | ICON_SIZE_LARGE_TOOLBAR
  deriving DecidableEq, Repr

/-- What a `Gtk::Image` shows: a stock item at an icon size. -/
structure Image where
  stock : StockID
  size : IconSize
  deriving DecidableEq, Repr

/-- A `Gtk::Button` built from a stock item; `image` is the picture installed
later with `set_image_from_icon_name`, if any. -/
structure Button where
  stock : StockID
  image : Option Image
  deriving DecidableEq, Repr

/-- The `GdkEventType` values a button handler can be handed. -/
inductive GdkEventType where
  | BUTTON_PRESS
  | DOUBLE_BUTTON_PRESS
  | TRIPLE_BUTTON_PRESS
  | BUTTON_RELEASE
  | MOTION_NOTIFY
  deriving DecidableEq, Repr

/-- The fields of `GdkEventButton` the handlers read; `D` stands for `double`. -/
structure GdkEventButton (D : Type) where
  type : GdkEventType
  button : Nat
  x_root : D
  y_root : D

/-- The fields of `GdkEventMotion` the handler reads; `D` stands for `double`. -/
structure GdkEventMotion (D : Type) where
  x_root : D
  y_root : D

/-- The `double` operations of the drag handlers: `operator-` on doubles, the
implicit conversion of an `int` operand, and `static_cast<int>`. -/
structure DoubleOps (D : Type) where
  sub : D → D → D
  ofInt : Int → D
  toInt : D → Int

/-- The position `get_allocation()` reports (`get_x()`, `get_y()`). -/
structure Allocation where
  x : Int
  y : Int
  deriving DecidableEq, Repr

/-! ## Effects -/

/-- What a handler does besides changing the widget's members. `dbus_call` is a
method call sent to a player over the bus; no function of the file performs
one. -/
inductive Effect where
  | stdout (text : String)
  | update_player_status
  | move (x y : Int)
  | dbus_call (player method : String)
  deriving DecidableEq, Repr

/-- Modelled from the spec: the `CommandError` taxonomy of the spec's error
handling section; the source declares no error type. -/
inductive CommandError where
  | NoActivePlayer
  | TransportFailure
  deriving DecidableEq, Repr

/-! ## `Glib::ustring::find` -/

/-- Does `pat` stand at the head of `s`? -/
def matchesAt : List Char → List Char → Bool
  | [], _ => true
  | _ :: _, [] => false
  | p :: ps, c :: cs => p == c && matchesAt ps cs

/-- The search loop of `find`: the first position, counted from `i`, at which
`pat` occurs in `s`; `none` is `npos`. -/
def ustring_find_from (pat : List Char) : List Char → Nat → Option Nat
  | [], i => if matchesAt pat [] then some i else none
  | c :: cs, i =>
    if matchesAt pat (c :: cs) then some i else ustring_find_from pat cs (i + 1)

/-- The call `s.find(pat)`: the character index of the first occurrence of
`pat` in `s`, `none` for `npos`. -/
def ustring_find (s pat : String) : Option Nat :=
  ustring_find_from pat.data s.data 0

/-- The bus-name prefix `on_name_owner_changed` tests for. -/
def MPRIS_PREFIX : String := "org.mpris.MediaPlayer2."

/-- A string begins with a prefix: it is the prefix followed by some rest. -/
def BeginsWith (s pre : String) : Prop := ∃ rest : String, s = pre ++ rest

/-! ## The widget -/

/-- The members of `MusicWidget` the handlers read or write. The spectrum data
and the opacity scale hold `double`s and are touched by no handler below. -/
structure MusicWidget where
  m_AlbumArt : Image
  m_TrackLabel : String
  m_ArtistLabel : String
  m_PrevButton : Button
  m_PlayPauseButton : Button
  m_NextButton : Button
  m_is_dragging : Bool
  m_drag_start_x : Int
  m_drag_start_y : Int
  m_current_player_bus_name : String
  deriving DecidableEq, Repr

/-- The constructor `MusicWidget::MusicWidget`. Its initialiser list leaves
`m_drag_start_x` and `m_drag_start_y` out, so their first values are whatever
the object holds: the two arguments. `m_current_player_bus_name` is
default-constructed, the empty string. `init_dbus`, called from the body, has an
empty body. -/
def MusicWidget.ctor (drag_x drag_y : Int) : MusicWidget where
  m_AlbumArt := ⟨StockID.MEDIA_OPTICAL, IconSize.ICON_SIZE_DIALOG⟩
  m_TrackLabel := "No Track Playing"
  m_ArtistLabel := ""
  m_PrevButton := ⟨StockID.MEDIA_SKIP_BACKWARD, none⟩
  m_PlayPauseButton := ⟨StockID.MEDIA_PLAY, none⟩
  m_NextButton := ⟨StockID.MEDIA_SKIP_FORWARD, none⟩
  m_is_dragging := false
  m_drag_start_x := drag_x
  m_drag_start_y := drag_y
  m_current_player_bus_name := ""

/-- The stub `MusicWidget::update_player_status`: an empty body. -/
def MusicWidget.update_player_status (w : MusicWidget) : MusicWidget × List Effect :=
  (w, [])

/-- The stub `MusicWidget::call_player_method`: an empty body. It returns
`void` and throws nothing, so the result is always `ok`. -/
def MusicWidget.call_player_method (w : MusicWidget) (_method_name : String) :
    Except CommandError (MusicWidget × List Effect) :=
  .ok (w, [])

/-- The handler `MusicWidget::on_prev_clicked`. -/
def MusicWidget.on_prev_clicked (w : MusicWidget) :
    Except CommandError (MusicWidget × List Effect) :=
  let fx1 := [Effect.stdout "Previous clicked!\n"]
  match w.call_player_method "Previous" with
  | .ok (w1, fx2) => .ok (w1, fx1 ++ fx2)
  | .error e => .error e

/-- The handler `MusicWidget::on_play_pause_clicked`. -/
def MusicWidget.on_play_pause_clicked (w : MusicWidget) :
    Except CommandError (MusicWidget × List Effect) :=
  let fx1 := [Effect.stdout "Play/Pause clicked!\n"]
  match w.call_player_method "PlayPause" with
  | .ok (w1, fx2) => .ok (w1, fx1 ++ fx2)
  | .error e => .error e

/-- The handler `MusicWidget::on_next_clicked`. -/
def MusicWidget.on_next_clicked (w : MusicWidget) :
    Except CommandError (MusicWidget × List Effect) :=
  let fx1 := [Effect.stdout "Next clicked!\n"]
  match w.call_player_method "Next" with
  | .ok (w1, fx2) => .ok (w1, fx1 ++ fx2)
  | .error e => .error e

/-- The handler `MusicWidget::on_name_owner_changed`. The connection argument
is not read and is left out; `sender_name` is not read either. -/
def MusicWidget.on_name_owner_changed (w : MusicWidget)
    (_sender_name node_name old_owner new_owner : String) : MusicWidget × List Effect :=
  if ustring_find node_name MPRIS_PREFIX = some 0 then
    if new_owner ≠ "" then
      let w1 := { w with m_current_player_bus_name := node_name }
      let (w2, fx) := w1.update_player_status
      (w2, Effect.stdout ("Player started: " ++ node_name ++ "\n")
            :: Effect.update_player_status :: fx)
    else if old_owner ≠ "" ∧ node_name = w.m_current_player_bus_name then
      ({ w with
          m_current_player_bus_name := ""
          m_TrackLabel := "No Track Playing"
          m_ArtistLabel := ""
          m_AlbumArt := ⟨StockID.MEDIA_OPTICAL, IconSize.ICON_SIZE_DIALOG⟩
          m_PlayPauseButton :=
            { w.m_PlayPauseButton with
              image := some ⟨StockID.MEDIA_PLAY, IconSize.ICON_SIZE_LARGE_TOOLBAR⟩ } },
        [Effect.stdout ("Player stopped: " ++ node_name ++ "\n")])
    else (w, [])
  else (w, [])

/-- The handler `MusicWidget::on_button_press_event`; the `Bool` is its return
value. -/
def MusicWidget.on_button_press_event {D : Type} (ops : DoubleOps D) (w : MusicWidget)
    (alloc : Allocation) (event : GdkEventButton D) : MusicWidget × Bool :=
  if event.type = GdkEventType.BUTTON_PRESS ∧ event.button = 1 then
    ({ w with
        m_is_dragging := true
        m_drag_start_x := ops.toInt (ops.sub event.x_root (ops.ofInt alloc.x))
        m_drag_start_y := ops.toInt (ops.sub event.y_root (ops.ofInt alloc.y)) }, true)
  else (w, false)

/-- The handler `MusicWidget::on_button_release_event`; the `Bool` is its return
value. -/
def MusicWidget.on_button_release_event {D : Type} (w : MusicWidget)
    (event : GdkEventButton D) : MusicWidget × Bool :=
  if event.type = GdkEventType.BUTTON_RELEASE ∧ event.button = 1 then
    ({ w with m_is_dragging := false }, true)
  else (w, false)

/-- The handler `MusicWidget::on_motion_notify_event`: the widget afterwards,
the effects (the `move` call) and the return value. -/
def MusicWidget.on_motion_notify_event {D : Type} (ops : DoubleOps D) (w : MusicWidget)
    (event : GdkEventMotion D) : MusicWidget × List Effect × Bool :=
  if w.m_is_dragging then
    let new_x := ops.toInt (ops.sub event.x_root (ops.ofInt w.m_drag_start_x))
    let new_y := ops.toInt (ops.sub event.y_root (ops.ofInt w.m_drag_start_y))
    (w, [Effect.move new_x new_y], true)
  else (w, [], false)

/-! ## Sequences of owner-changed events -/

/-- One `NameOwnerChanged` signal as the handler receives it. -/
structure OwnerChanged where
  sender_name : String
  node_name : String
  old_owner : String
  new_owner : String
  deriving DecidableEq, Repr

/-- One step: the handler applied to a signal. -/
def MusicWidget.step (w : MusicWidget) (e : OwnerChanged) : MusicWidget × List Effect :=
  w.on_name_owner_changed e.sender_name e.node_name e.old_owner e.new_owner

/-- The widget after a sequence of signals, handled one at a time in order. -/
def MusicWidget.run (w : MusicWidget) : List OwnerChanged → MusicWidget
  | [] => w
  | e :: es => MusicWidget.run (w.step e).1 es

/-- Arithmetic on `Int` standing in for `double`, for concrete evaluation. -/
def intOps : DoubleOps Int where
  sub := fun a b => a - b
  ofInt := fun n => n
  toInt := fun d => d

/-! ## States and invariants used in the statements -/

/-- The widget bound to the player `name`, all other members kept. -/
def MusicWidget.bound_to (w : MusicWidget) (name : String) : MusicWidget :=
  { w with m_current_player_bus_name := name }

/-- The widget after the reset the handler performs when the bound player
stops. -/
def MusicWidget.reset_display (w : MusicWidget) : MusicWidget :=
  { w with
    m_current_player_bus_name := ""
    m_TrackLabel := "No Track Playing"
    m_ArtistLabel := ""
    m_AlbumArt := ⟨StockID.MEDIA_OPTICAL, IconSize.ICON_SIZE_DIALOG⟩
    m_PlayPauseButton :=
      { w.m_PlayPauseButton with
        image := some ⟨StockID.MEDIA_PLAY, IconSize.ICON_SIZE_LARGE_TOOLBAR⟩ } }

/-- The display is in its unknown form whenever no player is bound. -/
def MusicWidget.MetadataInv (w : MusicWidget) : Prop :=
  w.m_current_player_bus_name = "" → w.m_TrackLabel = "No Track Playing" ∧ w.m_ArtistLabel = ""

/-- The bound name is empty or lies in the watched namespace. -/
def MusicWidget.NameInv (w : MusicWidget) : Prop :=
  w.m_current_player_bus_name = "" ∨ BeginsWith w.m_current_player_bus_name MPRIS_PREFIX

/-! ## Lemmas on `find` -/

theorem matchesAt_iff (pat s : List Char) : matchesAt pat s = true ↔ pat <+: s := by
  induction pat generalizing s with
  | nil => simp [matchesAt]
  | cons p ps ih =>
    cases s with
    | nil => simp [matchesAt]
    | cons c cs => simp [matchesAt, ih, List.cons_prefix_cons]

theorem ustring_find_from_ge (pat : List Char) (s : List Char) (i j : Nat)
    (h : ustring_find_from pat s i = some j) : i ≤ j := by
  induction s generalizing i with
  | nil =>
    unfold ustring_find_from at h
    split at h
    · simp at h; omega
    · simp at h
  | cons c cs ih =>
    unfold ustring_find_from at h
    split at h
    · simp at h; omega
    · have := ih (i + 1) h
      omega

theorem ustring_find_from_eq_start (pat s : List Char) (i : Nat) :
    ustring_find_from pat s i = some i ↔ matchesAt pat s = true := by
  cases s with
  | nil =>
    unfold ustring_find_from
    split <;> simp_all
  | cons c cs =>
    unfold ustring_find_from
    split
    · simp_all
    · rename_i hm
      constructor
      · intro h
        have := ustring_find_from_ge pat cs (i + 1) i h
        omega
      · intro h
        exact absurd h hm

theorem beginsWith_iff_data (s pre : String) : BeginsWith s pre ↔ pre.data <+: s.data := by
  constructor
  · rintro ⟨rest, rfl⟩
    exact ⟨rest.data, by simp⟩
  · rintro ⟨t, ht⟩
    exact ⟨⟨t⟩, String.ext (by simp [ht])⟩

/-- The test `s.find(pre) == 0` holds exactly of the strings that begin with `pre`. -/
theorem ustring_find_zero_iff (s pre : String) :
    ustring_find s pre = some 0 ↔ BeginsWith s pre := by
  unfold ustring_find
  rw [ustring_find_from_eq_start, matchesAt_iff, beginsWith_iff_data]

instance (s pre : String) : Decidable (BeginsWith s pre) :=
  decidable_of_iff _ (ustring_find_zero_iff s pre)

theorem beginsWith_mpris_ne_empty (s : String) (h : BeginsWith s MPRIS_PREFIX) : s ≠ "" := by
  rintro rfl
  rw [← ustring_find_zero_iff] at h
  revert h
  decide

/-- The test of the handler evaluated on three names. -/
theorem ustring_find_evaluated :
    ustring_find "org.mpris.MediaPlayer2.vlc" MPRIS_PREFIX = some 0 ∧
    ustring_find "media.player.X" MPRIS_PREFIX = none ∧
    ustring_find "xorg.mpris.MediaPlayer2.vlc" MPRIS_PREFIX = some 1 ∧
    BeginsWith "org.mpris.MediaPlayer2.vlc" MPRIS_PREFIX ∧
    ¬ BeginsWith "media.player.X" MPRIS_PREFIX := by
  decide

/-! ## Lemmas on the owner-changed handler -/

theorem on_name_owner_changed_outside (w : MusicWidget) (sender node old new : String)
    (h : ¬ BeginsWith node MPRIS_PREFIX) :
    w.on_name_owner_changed sender node old new = (w, []) := by
  rw [← ustring_find_zero_iff] at h
  simp [MusicWidget.on_name_owner_changed, h]

theorem on_name_owner_changed_appeared (w : MusicWidget) (sender node old new : String)
    (hns : BeginsWith node MPRIS_PREFIX) (hnew : new ≠ "") :
    w.on_name_owner_changed sender node old new =
      (w.bound_to node,
        [Effect.stdout ("Player started: " ++ node ++ "\n"), Effect.update_player_status]) := by
  rw [← ustring_find_zero_iff] at hns
  simp [MusicWidget.on_name_owner_changed, hns, hnew, MusicWidget.update_player_status,
    MusicWidget.bound_to]

theorem on_name_owner_changed_vanished (w : MusicWidget) (sender node old : String)
    (hns : BeginsWith node MPRIS_PREFIX) (hold : old ≠ "")
    (hcur : node = w.m_current_player_bus_name) :
    w.on_name_owner_changed sender node old "" =
      (w.reset_display, [Effect.stdout ("Player stopped: " ++ node ++ "\n")]) := by
  rw [← ustring_find_zero_iff] at hns
  subst hcur
  simp [MusicWidget.on_name_owner_changed, hns, hold, MusicWidget.reset_display]

theorem on_name_owner_changed_other (w : MusicWidget) (sender node old : String)
    (h : node ≠ w.m_current_player_bus_name ∨ old = "") :
    w.on_name_owner_changed sender node old "" = (w, []) := by
  unfold MusicWidget.on_name_owner_changed
  rcases h with h | h <;> simp [h]

/-- Every signal falls in one of four cases of the handler. -/
theorem step_cases (w : MusicWidget) (e : OwnerChanged) :
    (w.step e).1 = w ∨
    (BeginsWith e.node_name MPRIS_PREFIX ∧ e.new_owner ≠ "" ∧
      (w.step e).1 = w.bound_to e.node_name) ∨
    (BeginsWith e.node_name MPRIS_PREFIX ∧ e.new_owner = "" ∧ e.old_owner ≠ "" ∧
      e.node_name = w.m_current_player_bus_name ∧ (w.step e).1 = w.reset_display) := by
  unfold MusicWidget.step
  by_cases hns : BeginsWith e.node_name MPRIS_PREFIX
  · by_cases hnew : e.new_owner = ""
    · by_cases hc : e.node_name ≠ w.m_current_player_bus_name ∨ e.old_owner = ""
      · left
        rw [hnew, on_name_owner_changed_other w _ _ _ hc]
      · right; right
        simp only [not_or, not_not] at hc
        rw [hnew, on_name_owner_changed_vanished w _ _ _ hns hc.2 hc.1]
        exact ⟨hns, rfl, hc.2, hc.1, rfl⟩
    · right; left
      rw [on_name_owner_changed_appeared w _ _ _ _ hns hnew]
      exact ⟨hns, hnew, rfl⟩
  · left
    rw [on_name_owner_changed_outside w _ _ _ _ hns]

theorem step_preserves_MetadataInv (w : MusicWidget) (e : OwnerChanged)
    (h : w.MetadataInv) : (w.step e).1.MetadataInv := by
  rcases step_cases w e with hs | ⟨hns, _, hs⟩ | ⟨_, _, _, _, hs⟩
  · rw [hs]; exact h
  · rw [hs]
    intro hempty
    exact absurd hempty (beginsWith_mpris_ne_empty _ hns)
  · rw [hs]
    intro _
    exact ⟨rfl, rfl⟩

theorem step_preserves_NameInv (w : MusicWidget) (e : OwnerChanged)
    (h : w.NameInv) : (w.step e).1.NameInv := by
  rcases step_cases w e with hs | ⟨hns, _, hs⟩ | ⟨_, _, _, _, hs⟩
  · rw [hs]; exact h
  · rw [hs]; exact Or.inr hns
  · rw [hs]; exact Or.inl rfl

theorem run_preserves (P : MusicWidget → Prop)
    (hstep : ∀ w e, P w → P (MusicWidget.step w e).1)
    (es : List OwnerChanged) : ∀ w, P w → P (MusicWidget.run w es) := by
  induction es with
  | nil => intro w h; exact h
  | cons e es ih => intro w h; exact ih _ (hstep w e h)

/-! ## The owner-changed handler: claims -/

/-- C1: an owner-changed signal whose name does not begin with
"org.mpris.MediaPlayer2." leaves every member of the widget as it was, whatever
the old and new owner are, and performs no effect: nothing is printed and
`update_player_status` is not called. -/
theorem owner_changed_outside_namespace_ignored (w : MusicWidget)
    (sender node old new : String) (h : ¬ BeginsWith node MPRIS_PREFIX) :
    (w.on_name_owner_changed sender node old new).1 = w ∧
    (w.on_name_owner_changed sender node old new).2 = [] := by
  rw [on_name_owner_changed_outside w sender node old new h]
  exact ⟨rfl, rfl⟩

/-- C1 at a widget bound to a player and a signal for a notification service. -/
theorem owner_changed_outside_namespace_ignored_witness :
    ¬ BeginsWith "org.freedesktop.Notifications" MPRIS_PREFIX ∧
    (((MusicWidget.ctor 0 0).bound_to "org.mpris.MediaPlayer2.vlc").on_name_owner_changed
        "org.freedesktop.DBus" "org.freedesktop.Notifications" ":1.7" ":1.9").1 =
      (MusicWidget.ctor 0 0).bound_to "org.mpris.MediaPlayer2.vlc" ∧
    (((MusicWidget.ctor 0 0).bound_to "org.mpris.MediaPlayer2.vlc").on_name_owner_changed
        "org.freedesktop.DBus" "org.freedesktop.Notifications" ":1.7" ":1.9").2 = [] :=
  ⟨by decide,
    owner_changed_outside_namespace_ignored _ "org.freedesktop.DBus"
      "org.freedesktop.Notifications" ":1.7" ":1.9" (by decide)⟩

/-- C2: after every finite sequence of owner-changed signals handled from the
constructed widget, if no player is bound then the track label reads
"No Track Playing" and the artist label is empty. -/
theorem metadata_unknown_while_no_player (drag_x drag_y : Int) (es : List OwnerChanged)
    (h : ((MusicWidget.ctor drag_x drag_y).run es).m_current_player_bus_name = "") :
    ((MusicWidget.ctor drag_x drag_y).run es).m_TrackLabel = "No Track Playing" ∧
    ((MusicWidget.ctor drag_x drag_y).run es).m_ArtistLabel = "" :=
  run_preserves MusicWidget.MetadataInv step_preserves_MetadataInv es
    (MusicWidget.ctor drag_x drag_y) (fun _ => ⟨rfl, rfl⟩) h

/-- C2 at a run in which a player starts, a second one starts, and the second
one stops. -/
theorem metadata_unknown_while_no_player_witness :
    ((MusicWidget.ctor 3 4).run
      [⟨"org.freedesktop.DBus", "org.mpris.MediaPlayer2.vlc", "", ":1.5"⟩,
       ⟨"org.freedesktop.DBus", "org.mpris.MediaPlayer2.mpv", "", ":1.6"⟩,
       ⟨"org.freedesktop.DBus", "org.mpris.MediaPlayer2.mpv", ":1.6", ""⟩]).m_current_player_bus_name
      = "" ∧
    ((MusicWidget.ctor 3 4).run
      [⟨"org.freedesktop.DBus", "org.mpris.MediaPlayer2.vlc", "", ":1.5"⟩,
       ⟨"org.freedesktop.DBus", "org.mpris.MediaPlayer2.mpv", "", ":1.6"⟩,
       ⟨"org.freedesktop.DBus", "org.mpris.MediaPlayer2.mpv", ":1.6", ""⟩]).m_TrackLabel
      = "No Track Playing" ∧
    ((MusicWidget.ctor 3 4).run
      [⟨"org.freedesktop.DBus", "org.mpris.MediaPlayer2.vlc", "", ":1.5"⟩,
       ⟨"org.freedesktop.DBus", "org.mpris.MediaPlayer2.mpv", "", ":1.6"⟩,
       ⟨"org.freedesktop.DBus", "org.mpris.MediaPlayer2.mpv", ":1.6", ""⟩]).m_ArtistLabel
      = "" :=
  ⟨by decide, metadata_unknown_while_no_player 3 4 _ (by decide)⟩

/-- C3, the claim as stated fails: from the idle widget, the scenario's signal
(name "media.player.X", old owner "", new owner "conn1") binds no player and
performs no effect, because the name is outside "org.mpris.MediaPlayer2.". -/
theorem scenario_a_signal_is_ignored :
    (MusicWidget.ctor 0 0).m_current_player_bus_name = "" ∧
    ((MusicWidget.ctor 0 0).on_name_owner_changed
        "org.freedesktop.DBus" "media.player.X" "" "conn1").1.m_current_player_bus_name = "" ∧
    ((MusicWidget.ctor 0 0).on_name_owner_changed
        "org.freedesktop.DBus" "media.player.X" "" "conn1").1.m_current_player_bus_name
      ≠ "media.player.X" ∧
    ((MusicWidget.ctor 0 0).on_name_owner_changed
        "org.freedesktop.DBus" "media.player.X" "" "conn1").2 = [] := by
  decide

/-- C3, amended: from an idle widget, a signal with an empty old owner and a
non-empty new owner whose name begins with "org.mpris.MediaPlayer2." binds that
name (which is not empty), keeps every other member, prints the
"Player started" line and calls `update_player_status`. -/
theorem player_appeared_from_idle (w : MusicWidget) (sender node old new : String)
    (hidle : w.m_current_player_bus_name = "") (hns : BeginsWith node MPRIS_PREFIX)
    (hold : old = "") (hnew : new ≠ "") :
    (w.on_name_owner_changed sender node old new).1.m_current_player_bus_name = node ∧
    node ≠ "" ∧
    (w.on_name_owner_changed sender node old new).1 =
      { w with m_current_player_bus_name := node } ∧
    (w.on_name_owner_changed sender node old new).2 =
      [Effect.stdout ("Player started: " ++ node ++ "\n"), Effect.update_player_status] := by
  rw [on_name_owner_changed_appeared w sender node old new hns hnew]
  exact ⟨rfl, beginsWith_mpris_ne_empty node hns, rfl, rfl⟩

/-- C3 amended, at the constructed widget and the name
"org.mpris.MediaPlayer2.X". -/
theorem player_appeared_from_idle_witness :
    ((MusicWidget.ctor 0 0).on_name_owner_changed "org.freedesktop.DBus"
        "org.mpris.MediaPlayer2.X" "" "conn1").1.m_current_player_bus_name
      = "org.mpris.MediaPlayer2.X" ∧
    ((MusicWidget.ctor 0 0).on_name_owner_changed "org.freedesktop.DBus"
        "org.mpris.MediaPlayer2.X" "" "conn1").2 =
      [Effect.stdout "Player started: org.mpris.MediaPlayer2.X\n",
       Effect.update_player_status] :=
  have h := player_appeared_from_idle (MusicWidget.ctor 0 0) "org.freedesktop.DBus"
    "org.mpris.MediaPlayer2.X" "" "conn1" rfl (by decide) rfl (by decide)
  ⟨h.1, h.2.2.2.trans (by decide)⟩

/-- C4: when the bound player N, a name beginning with
"org.mpris.MediaPlayer2.", loses its owner (old owner non-empty, new owner
empty), the widget becomes idle: no player is bound, the track label reads
"No Track Playing", the artist label is empty, the album art is the optical-disc
stock image at dialog size, the play/pause button shows the play icon, and the
"Player stopped" line is printed. -/
theorem player_disappeared_resets (w : MusicWidget) (sender N old : String)
    (hcur : w.m_current_player_bus_name = N) (hns : BeginsWith N MPRIS_PREFIX)
    (hold : old ≠ "") :
    (w.on_name_owner_changed sender N old "").1.m_current_player_bus_name = "" ∧
    (w.on_name_owner_changed sender N old "").1.m_TrackLabel = "No Track Playing" ∧
    (w.on_name_owner_changed sender N old "").1.m_ArtistLabel = "" ∧
    (w.on_name_owner_changed sender N old "").1.m_AlbumArt =
      ⟨StockID.MEDIA_OPTICAL, IconSize.ICON_SIZE_DIALOG⟩ ∧
    (w.on_name_owner_changed sender N old "").1.m_PlayPauseButton.image =
      some ⟨StockID.MEDIA_PLAY, IconSize.ICON_SIZE_LARGE_TOOLBAR⟩ ∧
    (w.on_name_owner_changed sender N old "").2 =
      [Effect.stdout ("Player stopped: " ++ N ++ "\n")] := by
  rw [on_name_owner_changed_vanished w sender N old hns hold hcur.symm]
  exact ⟨rfl, rfl, rfl, rfl, rfl, rfl⟩

/-- C4 at a widget bound to "org.mpris.MediaPlayer2.vlc" that displays a track. -/
theorem player_disappeared_resets_witness :
    (({ MusicWidget.ctor 0 0 with
          m_current_player_bus_name := "org.mpris.MediaPlayer2.vlc"
          m_TrackLabel := "Blue in Green"
          m_ArtistLabel := "Miles Davis" } : MusicWidget).on_name_owner_changed
        "org.freedesktop.DBus" "org.mpris.MediaPlayer2.vlc" ":1.5" "").1.m_current_player_bus_name
      = "" ∧
    (({ MusicWidget.ctor 0 0 with
          m_current_player_bus_name := "org.mpris.MediaPlayer2.vlc"
          m_TrackLabel := "Blue in Green"
          m_ArtistLabel := "Miles Davis" } : MusicWidget).on_name_owner_changed
        "org.freedesktop.DBus" "org.mpris.MediaPlayer2.vlc" ":1.5" "").1.m_TrackLabel
      = "No Track Playing" :=
  have h := player_disappeared_resets
    { MusicWidget.ctor 0 0 with
      m_current_player_bus_name := "org.mpris.MediaPlayer2.vlc"
      m_TrackLabel := "Blue in Green"
      m_ArtistLabel := "Miles Davis" }
    "org.freedesktop.DBus" "org.mpris.MediaPlayer2.vlc" ":1.5" rfl (by decide) (by decide)
  ⟨h.1, h.2.1⟩

/-- C5, the claim as stated fails: the widget bound to
"org.mpris.MediaPlayer2.vlc" (reached from the constructor by that player's
start) receives the start of "org.mpris.MediaPlayer2.mpv" and is bound to the
second player afterwards, not to the first. -/
theorem second_player_arrival_switches :
    ((MusicWidget.ctor 0 0).run
      [⟨"org.freedesktop.DBus", "org.mpris.MediaPlayer2.vlc", "", ":1.5"⟩]).m_current_player_bus_name
      = "org.mpris.MediaPlayer2.vlc" ∧
    "org.mpris.MediaPlayer2.mpv" ≠ "org.mpris.MediaPlayer2.vlc" ∧
    (((MusicWidget.ctor 0 0).run
      [⟨"org.freedesktop.DBus", "org.mpris.MediaPlayer2.vlc", "", ":1.5"⟩]).on_name_owner_changed
        "org.freedesktop.DBus" "org.mpris.MediaPlayer2.mpv" "" ":1.6").1.m_current_player_bus_name
      = "org.mpris.MediaPlayer2.mpv" ∧
    (((MusicWidget.ctor 0 0).run
      [⟨"org.freedesktop.DBus", "org.mpris.MediaPlayer2.vlc", "", ":1.5"⟩]).on_name_owner_changed
        "org.freedesktop.DBus" "org.mpris.MediaPlayer2.mpv" "" ":1.6").1.m_current_player_bus_name
      ≠ "org.mpris.MediaPlayer2.vlc" := by
  decide

/-- C5, amended: when the widget is bound to a player A and a signal announces
the arrival (non-empty new owner) of a different player B whose name begins with
"org.mpris.MediaPlayer2.", the widget is bound to B afterwards; the labels, the
album art, the buttons and the drag members are kept, the "Player started" line
for B is printed and `update_player_status` is called. -/
theorem second_player_arrival_rebinds (w : MusicWidget) (A B sender old new : String)
    (hA : w.m_current_player_bus_name = A) (hAne : A ≠ "") (hB : BeginsWith B MPRIS_PREFIX)
    (hAB : B ≠ A) (hnew : new ≠ "") :
    (w.on_name_owner_changed sender B old new).1.m_current_player_bus_name = B ∧
    (w.on_name_owner_changed sender B old new).1.m_current_player_bus_name ≠ A ∧
    (w.on_name_owner_changed sender B old new).1 = { w with m_current_player_bus_name := B } ∧
    (w.on_name_owner_changed sender B old new).2 =
      [Effect.stdout ("Player started: " ++ B ++ "\n"), Effect.update_player_status] := by
  rw [on_name_owner_changed_appeared w sender B old new hB hnew]
  exact ⟨rfl, hAB, rfl, rfl⟩

/-- C5 amended, at a widget bound to "org.mpris.MediaPlayer2.vlc" and the
arrival of "org.mpris.MediaPlayer2.rhythmbox". -/
theorem second_player_arrival_rebinds_witness :
    (((MusicWidget.ctor 0 0).bound_to "org.mpris.MediaPlayer2.vlc").on_name_owner_changed
        "org.freedesktop.DBus" "org.mpris.MediaPlayer2.rhythmbox" "" ":1.8").1.m_current_player_bus_name
      = "org.mpris.MediaPlayer2.rhythmbox" :=
  (second_player_arrival_rebinds ((MusicWidget.ctor 0 0).bound_to "org.mpris.MediaPlayer2.vlc")
    "org.mpris.MediaPlayer2.vlc" "org.mpris.MediaPlayer2.rhythmbox" "org.freedesktop.DBus"
    "" ":1.8" rfl (by decide) (by decide) (by decide) (by decide)).1

/-- C6: handling the same owner-changed signal twice leaves the widget as
handling it once does; the second handling changes neither the bound name nor
the labels, the album art or the play/pause icon. -/
theorem on_name_owner_changed_idempotent (w : MusicWidget) (e : OwnerChanged) :
    ((w.step e).1.step e).1 = (w.step e).1 ∧
    ((w.step e).1.step e).1.m_current_player_bus_name = (w.step e).1.m_current_player_bus_name ∧
    ((w.step e).1.step e).1.m_TrackLabel = (w.step e).1.m_TrackLabel ∧
    ((w.step e).1.step e).1.m_ArtistLabel = (w.step e).1.m_ArtistLabel ∧
    ((w.step e).1.step e).1.m_AlbumArt = (w.step e).1.m_AlbumArt ∧
    ((w.step e).1.step e).1.m_PlayPauseButton = (w.step e).1.m_PlayPauseButton := by
  have key : ((w.step e).1.step e).1 = (w.step e).1 := by
    rcases step_cases w e with hs | ⟨hns, hnew, hs⟩ | ⟨hns, hnew, _, _, hs⟩
    · rw [hs]; exact hs
    · rw [hs]
      unfold MusicWidget.step
      rw [on_name_owner_changed_appeared _ _ _ _ _ hns hnew]
      rfl
    · rw [hs]
      unfold MusicWidget.step
      rw [hnew, on_name_owner_changed_other _ _ _ _
        (Or.inl (beginsWith_mpris_ne_empty _ hns))]
  rw [key]
  exact ⟨rfl, rfl, rfl, rfl, rfl, rfl⟩

/-- C7, the claim as stated fails: with no player bound, `on_next_clicked`
returns normally; its result is not the `NoActivePlayer` error. -/
theorem next_without_player_does_not_fail :
    (MusicWidget.ctor 0 0).m_current_player_bus_name = "" ∧
    (MusicWidget.ctor 0 0).on_next_clicked ≠ Except.error CommandError.NoActivePlayer ∧
    (MusicWidget.ctor 0 0).on_next_clicked =
      Except.ok (MusicWidget.ctor 0 0, [Effect.stdout "Next clicked!\n"]) := by
  refine ⟨rfl, ?_, rfl⟩
  intro h
  cases h

/-- C7, amended: with no player bound, each transport handler
(`on_prev_clicked`, `on_play_pause_clicked`, `on_next_clicked`, through
`call_player_method`) returns normally without reporting an error, leaves the
widget as it was, and its only effect is its "... clicked!" line on standard
output: no call goes out to a player. -/
theorem transport_command_without_player (w : MusicWidget)
    (h : w.m_current_player_bus_name = "") :
    (∀ method : String, w.call_player_method method = Except.ok (w, [])) ∧
    w.on_prev_clicked = Except.ok (w, [Effect.stdout "Previous clicked!\n"]) ∧
    w.on_play_pause_clicked = Except.ok (w, [Effect.stdout "Play/Pause clicked!\n"]) ∧
    w.on_next_clicked = Except.ok (w, [Effect.stdout "Next clicked!\n"]) ∧
    (∀ (r : Except CommandError (MusicWidget × List Effect)) (w1 : MusicWidget)
        (fx : List Effect) (player method : String),
      (r = w.on_prev_clicked ∨ r = w.on_play_pause_clicked ∨ r = w.on_next_clicked) →
      r = Except.ok (w1, fx) → Effect.dbus_call player method ∉ fx) := by
  refine ⟨fun _ => rfl, rfl, rfl, rfl, ?_⟩
  intro r w1 fx player method hr hok
  rcases hr with hr | hr | hr <;>
    · subst hr
      simp only [MusicWidget.on_prev_clicked, MusicWidget.on_play_pause_clicked,
        MusicWidget.on_next_clicked, MusicWidget.call_player_method, Except.ok.injEq,
        Prod.mk.injEq] at hok
      rw [← hok.2]
      simp

/-- C7 amended, at the constructed widget. -/
theorem transport_command_without_player_witness :
    (MusicWidget.ctor 0 0).on_prev_clicked =
      Except.ok (MusicWidget.ctor 0 0, [Effect.stdout "Previous clicked!\n"]) ∧
    (MusicWidget.ctor 0 0).on_play_pause_clicked =
      Except.ok (MusicWidget.ctor 0 0, [Effect.stdout "Play/Pause clicked!\n"]) :=
  have h := transport_command_without_player (MusicWidget.ctor 0 0) rfl
  ⟨h.2.1, h.2.2.1⟩

/-- C8: on a widget bound to a player A, a signal with an empty new owner whose
name differs from A, or whose old owner is empty too, changes no member (the
bound name stays A; labels, album art and play/pause icon are not reset) and
performs no effect. Accordingly a signal after which no player is bound is the
disappearance of A itself: new owner empty, old owner non-empty, name A. -/
theorem active_left_only_by_disappearance (w : MusicWidget)
    (A sender node old new : String)
    (hA : w.m_current_player_bus_name = A) (hAne : A ≠ "") :
    ((node ≠ A ∨ old = "") →
      w.on_name_owner_changed sender node old "" = (w, []) ∧
      (w.on_name_owner_changed sender node old "").1.m_current_player_bus_name = A) ∧
    ((w.on_name_owner_changed sender node old new).1.m_current_player_bus_name = "" →
      new = "" ∧ old ≠ "" ∧ node = A) := by
  subst hA
  constructor
  · intro h
    rw [on_name_owner_changed_other w sender node old h]
    exact ⟨rfl, rfl⟩
  · intro hidle
    rcases step_cases w ⟨sender, node, old, new⟩ with hs | ⟨hns, _, hs⟩ | ⟨_, hnew, hold, hcur, _⟩
    · simp only [MusicWidget.step] at hs
      rw [hs] at hidle
      exact absurd hidle hAne
    · simp only [MusicWidget.step] at hs
      rw [hs] at hidle
      exact absurd hidle (beginsWith_mpris_ne_empty _ hns)
    · exact ⟨hnew, hold, hcur⟩

/-- C8 at a widget bound to "org.mpris.MediaPlayer2.vlc" that displays a track,
and the stop of another player. -/
theorem active_left_only_by_disappearance_witness :
    ({ MusicWidget.ctor 0 0 with
        m_current_player_bus_name := "org.mpris.MediaPlayer2.vlc"
        m_TrackLabel := "So What"
        m_ArtistLabel := "Miles Davis" } : MusicWidget).on_name_owner_changed
      "org.freedesktop.DBus" "org.mpris.MediaPlayer2.mpv" ":1.6" "" =
    ({ MusicWidget.ctor 0 0 with
        m_current_player_bus_name := "org.mpris.MediaPlayer2.vlc"
        m_TrackLabel := "So What"
        m_ArtistLabel := "Miles Davis" }, []) :=
  ((active_left_only_by_disappearance
    { MusicWidget.ctor 0 0 with
      m_current_player_bus_name := "org.mpris.MediaPlayer2.vlc"
      m_TrackLabel := "So What"
      m_ArtistLabel := "Miles Davis" }
    "org.mpris.MediaPlayer2.vlc" "org.freedesktop.DBus" "org.mpris.MediaPlayer2.mpv" ":1.6" ""
    rfl (by decide)).1 (Or.inl (by decide))).1

/-- C9: starting from a widget with no player bound, after every finite
sequence of owner-changed signals the bound name is empty or begins with
"org.mpris.MediaPlayer2."; a name outside the namespace is never bound. -/
theorem bound_name_in_namespace (w : MusicWidget) (es : List OwnerChanged)
    (h : w.m_current_player_bus_name = "") :
    (w.run es).m_current_player_bus_name = "" ∨
    BeginsWith (w.run es).m_current_player_bus_name MPRIS_PREFIX :=
  run_preserves MusicWidget.NameInv step_preserves_NameInv es w (Or.inl h)

/-- C9 at a run with a signal outside the namespace, two starts and a stop of a
player that is not the bound one. -/
theorem bound_name_in_namespace_witness :
    ((MusicWidget.ctor 0 0).run
      [⟨"org.freedesktop.DBus", "com.example.Player", "", ":1.2"⟩,
       ⟨"org.freedesktop.DBus", "org.mpris.MediaPlayer2.vlc", "", ":1.5"⟩,
       ⟨"org.freedesktop.DBus", "org.mpris.MediaPlayer2.mpv", "", ":1.6"⟩,
       ⟨"org.freedesktop.DBus", "org.mpris.MediaPlayer2.vlc", ":1.5", ""⟩]).m_current_player_bus_name
      = "org.mpris.MediaPlayer2.mpv" ∧
    BeginsWith "org.mpris.MediaPlayer2.mpv" MPRIS_PREFIX :=
  have h := bound_name_in_namespace (MusicWidget.ctor 0 0)
    [⟨"org.freedesktop.DBus", "com.example.Player", "", ":1.2"⟩,
     ⟨"org.freedesktop.DBus", "org.mpris.MediaPlayer2.vlc", "", ":1.5"⟩,
     ⟨"org.freedesktop.DBus", "org.mpris.MediaPlayer2.mpv", "", ":1.6"⟩,
     ⟨"org.freedesktop.DBus", "org.mpris.MediaPlayer2.vlc", ":1.5", ""⟩] rfl
  have hname : ((MusicWidget.ctor 0 0).run
      [⟨"org.freedesktop.DBus", "com.example.Player", "", ":1.2"⟩,
       ⟨"org.freedesktop.DBus", "org.mpris.MediaPlayer2.vlc", "", ":1.5"⟩,
       ⟨"org.freedesktop.DBus", "org.mpris.MediaPlayer2.mpv", "", ":1.6"⟩,
       ⟨"org.freedesktop.DBus", "org.mpris.MediaPlayer2.vlc", ":1.5", ""⟩]).m_current_player_bus_name
      = "org.mpris.MediaPlayer2.mpv" := by decide
  ⟨hname, by
    rw [hname] at h
    exact h.resolve_left (by decide)⟩

/-! ## Window dragging -/

/-- The owner-changed handler writes none of the drag members. -/
theorem on_name_owner_changed_keeps_drag (w : MusicWidget) (sender node old new : String) :
    (w.on_name_owner_changed sender node old new).1.m_is_dragging = w.m_is_dragging ∧
    (w.on_name_owner_changed sender node old new).1.m_drag_start_x = w.m_drag_start_x ∧
    (w.on_name_owner_changed sender node old new).1.m_drag_start_y = w.m_drag_start_y := by
  rcases step_cases w ⟨sender, node, old, new⟩ with hs | ⟨_, _, hs⟩ | ⟨_, _, _, _, hs⟩ <;>
    · simp only [MusicWidget.step] at hs
      rw [hs]
      exact ⟨rfl, rfl, rfl⟩

/-- C10: the drag flag is false in the constructed widget. The press handler
turns it on, and returns true, exactly at a `BUTTON_PRESS` of button 1; the
release handler turns it off, and returns true, exactly at a `BUTTON_RELEASE` of
button 1; at any other button both leave the flag and the stored offsets as
they were and return false. The motion handler moves the window and returns
true exactly when the flag is set, and otherwise returns false with no move; it
never changes the widget. -/
theorem drag_state_machine {D : Type} (ops : DoubleOps D) (w : MusicWidget)
    (alloc : Allocation) (b : GdkEventButton D) (m : GdkEventMotion D) (drag_x drag_y : Int) :
    (MusicWidget.ctor drag_x drag_y).m_is_dragging = false ∧
    -- press: the flag afterwards, and the return value
    ((w.on_button_press_event ops alloc b).1.m_is_dragging = true ↔
      (w.m_is_dragging = true ∨ (b.type = GdkEventType.BUTTON_PRESS ∧ b.button = 1))) ∧
    ((w.on_button_press_event ops alloc b).2 = true ↔
      (b.type = GdkEventType.BUTTON_PRESS ∧ b.button = 1)) ∧
    -- release: the flag afterwards, and the return value
    ((w.on_button_release_event b).1.m_is_dragging = false ↔
      (w.m_is_dragging = false ∨ (b.type = GdkEventType.BUTTON_RELEASE ∧ b.button = 1))) ∧
    ((w.on_button_release_event b).2 = true ↔
      (b.type = GdkEventType.BUTTON_RELEASE ∧ b.button = 1)) ∧
    -- release keeps the stored offsets
    ((w.on_button_release_event b).1.m_drag_start_x = w.m_drag_start_x ∧
      (w.on_button_release_event b).1.m_drag_start_y = w.m_drag_start_y) ∧
    -- any other button
    (b.button ≠ 1 →
      w.on_button_press_event ops alloc b = (w, false) ∧
      w.on_button_release_event b = (w, false)) ∧
    -- motion
    ((w.on_motion_notify_event ops m).1 = w) ∧
    (((w.on_motion_notify_event ops m).2.2 = true ↔ w.m_is_dragging = true) ∧
      ((∃ x y, Effect.move x y ∈ (w.on_motion_notify_event ops m).2.1) ↔
        w.m_is_dragging = true)) ∧
    (w.m_is_dragging = false → w.on_motion_notify_event ops m = (w, [], false)) := by
  refine ⟨rfl, ?_, ?_, ?_, ?_, ?_, ?_, ?_, ?_, ?_⟩
  · unfold MusicWidget.on_button_press_event
    split <;> simp_all
  · unfold MusicWidget.on_button_press_event
    split <;> simp_all
  · unfold MusicWidget.on_button_release_event
    split <;> simp_all
  · unfold MusicWidget.on_button_release_event
    split <;> simp_all
  · unfold MusicWidget.on_button_release_event
    split <;> simp
  · intro hb
    simp [MusicWidget.on_button_press_event, MusicWidget.on_button_release_event, hb]
  · unfold MusicWidget.on_motion_notify_event
    split <;> rfl
  · unfold MusicWidget.on_motion_notify_event
    split <;> simp_all
  · intro hf
    simp [MusicWidget.on_motion_notify_event, hf]

/-- C10 at the constructed widget allocated at (100, 50): a press of button 1
sets the flag, a press of button 3 changes nothing and returns false. -/
theorem drag_state_machine_witness :
    ((MusicWidget.ctor 0 0).on_button_press_event intOps ⟨100, 50⟩
        ⟨GdkEventType.BUTTON_PRESS, 1, 130, 70⟩).1.m_is_dragging = true ∧
    (MusicWidget.ctor 0 0).on_button_press_event intOps ⟨100, 50⟩
        ⟨GdkEventType.BUTTON_PRESS, 3, 130, 70⟩ = (MusicWidget.ctor 0 0, false) ∧
    (MusicWidget.ctor 0 0).on_motion_notify_event intOps ⟨140, 90⟩ =
      (MusicWidget.ctor 0 0, [], false) :=
  ⟨(drag_state_machine intOps (MusicWidget.ctor 0 0) ⟨100, 50⟩
      ⟨GdkEventType.BUTTON_PRESS, 1, 130, 70⟩ ⟨140, 90⟩ 0 0).2.1.mpr (Or.inr ⟨rfl, rfl⟩),
    ((drag_state_machine intOps (MusicWidget.ctor 0 0) ⟨100, 50⟩
      ⟨GdkEventType.BUTTON_PRESS, 3, 130, 70⟩ ⟨140, 90⟩ 0 0).2.2.2.2.2.2.1 (by decide)).1,
    (drag_state_machine intOps (MusicWidget.ctor 0 0) ⟨100, 50⟩
      ⟨GdkEventType.BUTTON_PRESS, 1, 130, 70⟩ ⟨140, 90⟩ 0 0).2.2.2.2.2.2.2.2.2 rfl⟩

/-- A drag evaluated step by step: press at (130, 70) on a window allocated at
(100, 50), motion to (140, 90), release. -/
theorem drag_run_example :
    let pressed := ((MusicWidget.ctor 0 0).on_button_press_event intOps ⟨100, 50⟩
      ⟨GdkEventType.BUTTON_PRESS, 1, 130, 70⟩).1
    pressed.m_drag_start_x = 30 ∧ pressed.m_drag_start_y = 20 ∧
    pressed.on_motion_notify_event intOps ⟨140, 90⟩ = (pressed, [Effect.move 110 70], true) ∧
    (pressed.on_button_release_event
      (⟨GdkEventType.BUTTON_RELEASE, 1, 140, 90⟩ : GdkEventButton Int)).1.m_is_dragging
      = false := by
  decide
